import Mathlib

set_option maxRecDepth 100000
set_option maxHeartbeats 1000000

/-!
Shallow embedding of the Jobly core: the parameterized partial-update
statement builder (helpers/sql.js), the company and job search builders,
and the Company and Job resource models (models/company.js, models/job.js),
together with proofs of the specified properties.

JavaScript objects are modelled as association lists in insertion order;
`undefined` fields are `Option.none`; query parameter values are a small
sum type `Val`; errors thrown by the model layer are the inductive
`JoblyError` (the code's BadRequestError covers both the validation and
the duplicate-key conflict cases of the specification, both mapped to
HTTP 400; NotFoundError maps to 404).
-/

instance {ε α : Type} [DecidableEq ε] [DecidableEq α] : DecidableEq (Except ε α)
  | .error a, .error b =>
    if h : a = b then .isTrue (congrArg Except.error h)
    else .isFalse (fun hh => h (Except.error.inj hh))
  | .error _, .ok _ => .isFalse (fun hh => Except.noConfusion hh)
  | .ok _, .error _ => .isFalse (fun hh => Except.noConfusion hh)
  | .ok a, .ok b =>
    if h : a = b then .isTrue (congrArg Except.ok h)
    else .isFalse (fun hh => h (Except.ok.inj hh))

/-- Error kinds thrown by the model layer, as in expressError.js usage:
`badRequestError` is the code's BadRequestError, `notFoundError` is
NotFoundError. -/
inductive JoblyError where
  | badRequestError (msg : String)
  | notFoundError (msg : String)
deriving Repr, DecidableEq

/-- A positional query parameter value: a string or an integer. -/
inductive Val where
  | vStr (s : String)
  | vInt (n : Int)
deriving Repr, DecidableEq

/-- Column-name resolution of helpers/sql.js line 23: the JavaScript
expression `jsToSql[colName] || colName`.  A key absent from the map, or
mapped to a falsy value (the empty string), resolves to the key itself. -/
def lookupCol (jsToSql : List (String × String)) (colName : String) : String :=
  match jsToSql.lookup colName with
  | some c => if c = "" then colName else c
  | none => colName

/-- Column-name resolution as the specification words it: resolve via the
map, and only an absent key is used verbatim (an empty map entry is kept). -/
def lookupColSpec (jsToSql : List (String × String)) (colName : String) : String :=
  (jsToSql.lookup colName).getD colName

/-- The `keys.map((colName, idx) => ...)` loop of helpers/sql.js line 23,
with an explicit running index: one `"column"=$i` fragment per key,
indices assigned sequentially. -/
def colsFrom (jsToSql : List (String × String)) : Nat → List String → List String
  | _, [] => []
  | idx, k :: ks =>
      ("\"" ++ lookupCol jsToSql k ++ "\"=$" ++ toString (idx + 1))
        :: colsFrom jsToSql (idx + 1) ks

/-- helpers/sql.js `sqlForPartialUpdate(dataToUpdate, jsToSql)`: fails with
BadRequestError "No data" when the update mapping is empty, otherwise
returns the comma-joined `"column"=$i` fragments (insertion order,
indices from 1) and the values in the same order. -/
def sqlForPartialUpdate (dataToUpdate : List (String × α))
    (jsToSql : List (String × String)) : Except JoblyError (String × List α) :=
  let keys := dataToUpdate.map Prod.fst
  if keys.length = 0 then
    .error (.badRequestError "No data")
  else
    let cols := colsFrom jsToSql 0 keys
    .ok (String.intercalate ", " cols, dataToUpdate.map Prod.snd)

/-- The fragment loop with the specification's column resolution
(`lookupColSpec`) in place of the code's falsy-fallback resolution. -/
def colsFromSpec (jsToSql : List (String × String)) : Nat → List String → List String
  | _, [] => []
  | idx, k :: ks =>
      ("\"" ++ lookupColSpec jsToSql k ++ "\"=$" ++ toString (idx + 1))
        :: colsFromSpec jsToSql (idx + 1) ks

/-- The statement builder as the specification words it, differing from
`sqlForPartialUpdate` only in using `lookupColSpec`. -/
def sqlForPartialUpdateSpec (dataToUpdate : List (String × α))
    (jsToSql : List (String × String)) : Except JoblyError (String × List α) :=
  let keys := dataToUpdate.map Prod.fst
  if keys.length = 0 then
    .error (.badRequestError "No data")
  else
    let cols := colsFromSpec jsToSql 0 keys
    .ok (String.intercalate ", " cols, dataToUpdate.map Prod.snd)

/-- The optional company search parameters of Company.findAll
(models/company.js line 66): `undefined` is `none`. -/
structure CompanyFilter where
  name : Option String
  minEmployees : Option Int
  maxEmployees : Option Int
deriving Repr, DecidableEq

/-- The optional job search parameters of Job.findAll
(models/job.js line 50). -/
structure JobFilter where
  title : Option String
  minSalary : Option Int
  hasEquity : Option Bool
deriving Repr, DecidableEq

/-- The JavaScript comparison `minEmployees > maxEmployees` of
models/company.js line 69: comparison with `undefined` is false, so it
holds only when both bounds are present and the minimum exceeds the
maximum. -/
def exceedsMax (minEmployees maxEmployees : Option Int) : Bool :=
  match minEmployees, maxEmployees with
  | some a, some b => a > b
  | _, _ => false

/-- The initial SELECT of Company.findAll (models/company.js lines 52-57). -/
def companyMainQuery : String :=
  "SELECT handle,\n" ++
  "                            name,\n" ++
  "                            description,\n" ++
  "                            num_employees AS \"numEmployees\",\n" ++
  "                            logo_url AS \"logoUrl\"\n" ++
  "                      FROM companies"

/-- Company.findAll as a statement builder (models/company.js lines 50-103):
either a BadRequestError (thrown before any statement reaches the store)
or the SQL text paired with the positional parameter list handed to
`db.query`. -/
def companyFindAllQuery (parameters : CompanyFilter) :
    Except JoblyError (String × List Val) :=
  let endQuery := " ORDER BY name"
  if exceedsMax parameters.minEmployees parameters.maxEmployees then
    .error (.badRequestError "Minimum employees cannot exceed maximum employees")
  else
    let acc0 : List Val × List String := ([], [])
    let acc1 :=
      match parameters.minEmployees with
      | some m =>
          (acc0.1 ++ [Val.vInt m],
           acc0.2 ++ ["num_employees >= $" ++ toString (acc0.1.length + 1)])
      | none => acc0
    let acc2 :=
      match parameters.maxEmployees with
      | some m =>
          (acc1.1 ++ [Val.vInt m],
           acc1.2 ++ ["num_employees <= $" ++ toString (acc1.1.length + 1)])
      | none => acc1
    let acc3 :=
      match parameters.name with
      | some n =>
          if n = "" then acc2
          else
            (acc2.1 ++ [Val.vStr ("%" ++ n ++ "%")],
             acc2.2 ++ ["name ILIKE $" ++ toString (acc2.1.length + 1)])
      | none => acc2
    let sqlQuery :=
      if acc3.2.length > 0 then
        companyMainQuery ++ " WHERE " ++ String.intercalate " AND " acc3.2 ++ endQuery
      else
        companyMainQuery ++ endQuery
    .ok (sqlQuery, acc3.1)

/-- Company.findAll as the specification words it: the name predicate is
added whenever `name` is present, not only when it is non-empty.  Differs
from `companyFindAllQuery` only in the `parameters.name` case split. -/
def companyFindAllQuerySpec (parameters : CompanyFilter) :
    Except JoblyError (String × List Val) :=
  let endQuery := " ORDER BY name"
  if exceedsMax parameters.minEmployees parameters.maxEmployees then
    .error (.badRequestError "Minimum employees cannot exceed maximum employees")
  else
    let acc0 : List Val × List String := ([], [])
    let acc1 :=
      match parameters.minEmployees with
      | some m =>
          (acc0.1 ++ [Val.vInt m],
           acc0.2 ++ ["num_employees >= $" ++ toString (acc0.1.length + 1)])
      | none => acc0
    let acc2 :=
      match parameters.maxEmployees with
      | some m =>
          (acc1.1 ++ [Val.vInt m],
           acc1.2 ++ ["num_employees <= $" ++ toString (acc1.1.length + 1)])
      | none => acc1
    let acc3 :=
      match parameters.name with
      | some n =>
          (acc2.1 ++ [Val.vStr ("%" ++ n ++ "%")],
           acc2.2 ++ ["name ILIKE $" ++ toString (acc2.1.length + 1)])
      | none => acc2
    let sqlQuery :=
      if acc3.2.length > 0 then
        companyMainQuery ++ " WHERE " ++ String.intercalate " AND " acc3.2 ++ endQuery
      else
        companyMainQuery ++ endQuery
    .ok (sqlQuery, acc3.1)

/-- The initial SELECT of Job.findAll (models/job.js lines 34-41),
joining jobs to companies to expose the company name. -/
def jobMainQuery : String :=
  "SELECT j.id, \n" ++
  "                                j.title, \n" ++
  "                                j.salary, \n" ++
  "                                j.equity, \n" ++
  "                                j.company_handle AS \"companyHandle\", \n" ++
  "                                c.name\n" ++
  "                         FROM jobs AS j\n" ++
  "                         JOIN companies AS c ON j.company_handle = c.handle"

/-- Job.findAll as a statement builder (models/job.js lines 33-79): the SQL
text paired with the positional parameter list handed to `db.query`.
No validation is performed, so it always produces a statement. -/
def jobFindAllQuery (parameters : JobFilter) : String × List Val :=
  let endQuery := " ORDER BY title"
  let acc0 : List Val × List String := ([], [])
  let acc1 :=
    match parameters.hasEquity with
    | some true => (acc0.1, acc0.2 ++ ["equity > 0"])
    | _ => acc0
  let acc2 :=
    match parameters.title with
    | some t =>
        (acc1.1 ++ [Val.vStr ("%" ++ t ++ "%")],
         acc1.2 ++ ["title ILIKE $" ++ toString (acc1.1.length + 1)])
    | none => acc1
  let acc3 :=
    match parameters.minSalary with
    | some m =>
        (acc2.1 ++ [Val.vInt m],
         acc2.2 ++ ["salary >= $" ++ toString (acc2.1.length + 1)])
    | none => acc2
  let sqlQuery :=
    if acc3.2.length > 0 then
      jobMainQuery ++ " WHERE " ++ String.intercalate " AND " acc3.2 ++ endQuery
    else
      jobMainQuery ++ endQuery
  (sqlQuery, acc3.1)

/-- A row of the companies table in its public shape (models/company.js):
`description`, `num_employees` and `logo_url` are nullable. -/
structure Company where
  handle : String
  name : String
  description : Option String
  numEmployees : Option Int
  logoUrl : Option String
deriving Repr, DecidableEq

/-- A row of the jobs table in its public shape (models/job.js). -/
structure Job where
  id : Int
  title : String
  salary : Option Int
  equity : Option String
  companyHandle : String
deriving Repr, DecidableEq

/-- The relational store: the companies and jobs tables, rows in natural
order. -/
structure Store where
  companies : List Company
  jobs : List Job
deriving Repr, DecidableEq

/-- Company.create (models/company.js lines 19-39): a duplicate-handle
check first (BadRequestError on a hit, leaving the store untouched),
then the INSERT returning the created record. -/
def companyCreate (data : Company) (s : Store) :
    Except JoblyError Company × Store :=
  match s.companies.find? (fun c => c.handle == data.handle) with
  | some _ => (.error (.badRequestError ("Duplicate company: " ++ data.handle)), s)
  | none => (.ok data, { s with companies := s.companies ++ [data] })

/-- Company.get (models/company.js lines 115-132): the first row whose
handle matches, or NotFoundError.  The result is the plain company
record: the implementation issues no jobs query and attaches no jobs
list, although its own doc comment (lines 107-113) promises one. -/
def companyGet (handle : String) (s : Store) : Except JoblyError Company :=
  match s.companies.find? (fun c => c.handle == handle) with
  | some c => .ok c
  | none => .error (.notFoundError ("No company: " ++ handle))

/-- Effect of one `"column"=$i` assignment on a company row; unknown
columns never arise from the fixed caller-controlled key set. -/
def setCompanyCol (c : Company) (col : String) (v : Val) : Company :=
  if col = "handle" then
    match v with | .vStr x => { c with handle := x } | _ => c
  else if col = "name" then
    match v with | .vStr x => { c with name := x } | _ => c
  else if col = "description" then
    match v with | .vStr x => { c with description := some x } | _ => c
  else if col = "num_employees" then
    match v with | .vInt n => { c with numEmployees := some n } | _ => c
  else if col = "logo_url" then
    match v with | .vStr x => { c with logoUrl := some x } | _ => c
  else c

/-- Apply a SET clause, left to right, to a company row. -/
def applyCompanyUpdate (c : Company) (assigns : List (String × Val)) : Company :=
  assigns.foldl (fun c kv => setCompanyCol c kv.1 kv.2) c

/-- The field-name translation map Company.update passes to the statement
builder (models/company.js lines 147-150). -/
def companyJsToSql : List (String × String) :=
  [("numEmployees", "num_employees"), ("logoUrl", "logo_url")]

/-- Company.update (models/company.js lines 146-167): delegates to
`sqlForPartialUpdate` with `companyJsToSql` (propagating its
BadRequestError on empty data), then issues
`UPDATE companies SET ... WHERE handle = $n RETURNING ...`; when no row
matches, the store is untouched and NotFoundError is thrown. -/
def companyUpdate (handle : String) (data : List (String × Val)) (s : Store) :
    Except JoblyError Company × Store :=
  match sqlForPartialUpdate data companyJsToSql with
  | .error e => (.error e, s)
  | .ok _ =>
      let assigns := data.map (fun kv => (lookupCol companyJsToSql kv.1, kv.2))
      let touched := s.companies.filterMap
        (fun c => if c.handle == handle then some (applyCompanyUpdate c assigns) else none)
      match touched.head? with
      | some c =>
          (.ok c,
           { s with companies :=
              (s.companies.map
                (fun c => if c.handle == handle then applyCompanyUpdate c assigns else c)) })
      | none => (.error (.notFoundError ("No company: " ++ handle)), s)

/-- Company.remove (models/company.js lines 174-185): DELETE returning the
deleted handle; NotFoundError and an untouched store when nothing
matched. -/
def companyRemove (handle : String) (s : Store) :
    Except JoblyError Unit × Store :=
  match s.companies.find? (fun c => c.handle == handle) with
  | some _ =>
      (.ok (), { s with companies := s.companies.filter (fun c => !(c.handle == handle)) })
  | none => (.error (.notFoundError ("No company: " ++ handle)), s)

/-- The result shape of Job.get (models/job.js lines 84-111): the job
fields with the flat `companyHandle` string replaced by the referenced
company record fetched in a second query (`none` when that company row
is gone). -/
structure JobDetail where
  id : Int
  title : String
  salary : Option Int
  equity : Option String
  companyHandle : Option Company
deriving Repr, DecidableEq

/-- Job.get (models/job.js lines 84-111): NotFoundError when no job row
matches; otherwise a second SELECT fetches the referenced company and its
record is nested under `companyHandle` in place of the flat string. -/
def jobGet (id : Int) (s : Store) : Except JoblyError JobDetail :=
  match s.jobs.find? (fun j => j.id == id) with
  | none => .error (.notFoundError ("That job does not exist: job id " ++ toString id))
  | some j =>
      .ok { id := j.id, title := j.title, salary := j.salary, equity := j.equity,
            companyHandle := s.companies.find? (fun c => c.handle == j.companyHandle) }

/-- Effect of one `"column"=$i` assignment on a job row. -/
def setJobCol (j : Job) (col : String) (v : Val) : Job :=
  if col = "title" then
    match v with | .vStr x => { j with title := x } | _ => j
  else if col = "salary" then
    match v with | .vInt n => { j with salary := some n } | _ => j
  else if col = "equity" then
    match v with | .vStr x => { j with equity := some x } | _ => j
  else j

/-- Apply a SET clause, left to right, to a job row. -/
def applyJobUpdate (j : Job) (assigns : List (String × Val)) : Job :=
  assigns.foldl (fun j kv => setJobCol j kv.1 kv.2) j

/-- Job.update (models/job.js lines 118-129): delegates to
`sqlForPartialUpdate` with an empty translation map, then issues
`UPDATE jobs SET ... WHERE id=$n RETURNING ...`; NotFoundError and an
untouched store when no row matches. -/
def jobUpdate (id : Int) (data : List (String × Val)) (s : Store) :
    Except JoblyError Job × Store :=
  match sqlForPartialUpdate data [] with
  | .error e => (.error e, s)
  | .ok _ =>
      let assigns := data.map (fun kv => (lookupCol [] kv.1, kv.2))
      let touched := s.jobs.filterMap
        (fun j => if j.id == id then some (applyJobUpdate j assigns) else none)
      match touched.head? with
      | some j =>
          (.ok j,
           { s with jobs :=
              (s.jobs.map
                (fun j => if j.id == id then applyJobUpdate j assigns else j)) })
      | none => (.error (.notFoundError ("That job does not exist: job id " ++ toString id)), s)

/-- Job.remove (models/job.js lines 134-145): DELETE returning the deleted
id; NotFoundError and an untouched store when nothing matched. -/
def jobRemove (id : Int) (s : Store) : Except JoblyError Unit × Store :=
  match s.jobs.find? (fun j => j.id == id) with
  | some _ => (.ok (), { s with jobs := s.jobs.filter (fun j => !(j.id == id)) })
  | none => (.error (.notFoundError ("That job does not exist: job id " ++ toString id)), s)

/-- Whether the filter's `name` passes the JavaScript truthiness test
`if (name)` of models/company.js line 90: present and non-empty. -/
def companyNameActive (f : CompanyFilter) : Bool :=
  match f.name with
  | some n => !(n == "")
  | none => false

/-- Whether the filter selects the equity predicate: exactly
`hasEquity === true` (models/job.js line 53). -/
def hasEquityActive (f : JobFilter) : Bool :=
  match f.hasEquity with
  | some true => true
  | _ => false

/-- The SQL text Company.findAll issues, as a function of which of the
three predicates is active: predicates in the fixed order
min, max, name, AND-joined, placeholder indices counting the preceding
value-bearing predicates, ORDER BY name at the end. -/
def companyTextOf (hasMin hasMax hasName : Bool) : String :=
  let preds :=
    (if hasMin then ["num_employees >= $1"] else []) ++
    (if hasMax then
      ["num_employees <= $" ++ toString ((if hasMin then (1 : Nat) else 0) + 1)] else []) ++
    (if hasName then
      ["name ILIKE $" ++
        toString ((if hasMin then (1 : Nat) else 0) + (if hasMax then 1 else 0) + 1)] else [])
  if preds.length > 0 then
    companyMainQuery ++ " WHERE " ++ String.intercalate " AND " preds ++ " ORDER BY name"
  else
    companyMainQuery ++ " ORDER BY name"

/-- The positional parameter list Company.findAll passes to the store, in
the same fixed order as the predicates: min bound, max bound, then the
name wrapped in wildcard markers. -/
def companyValsOf (f : CompanyFilter) : List Val :=
  (match f.minEmployees with | some m => [Val.vInt m] | none => []) ++
  (match f.maxEmployees with | some m => [Val.vInt m] | none => []) ++
  (match f.name with
   | some n => if n = "" then [] else [Val.vStr ("%" ++ n ++ "%")]
   | none => [])

/-- The SQL text Job.findAll issues, as a function of which predicates are
active: equity first (value-free), then title, then salary, AND-joined,
placeholder indices counting the preceding value-bearing predicates,
ORDER BY title at the end. -/
def jobTextOf (hasEq hasTitle hasSalary : Bool) : String :=
  let preds :=
    (if hasEq then ["equity > 0"] else []) ++
    (if hasTitle then ["title ILIKE $1"] else []) ++
    (if hasSalary then
      ["salary >= $" ++ toString ((if hasTitle then (1 : Nat) else 0) + 1)] else [])
  if preds.length > 0 then
    jobMainQuery ++ " WHERE " ++ String.intercalate " AND " preds ++ " ORDER BY title"
  else
    jobMainQuery ++ " ORDER BY title"

/-- The positional parameter list Job.findAll passes to the store: the
wildcard-wrapped title, then the salary bound (the equity predicate is
value-free). -/
def jobValsOf (f : JobFilter) : List Val :=
  (match f.title with | some t => [Val.vStr ("%" ++ t ++ "%")] | none => []) ++
  (match f.minSalary with | some m => [Val.vInt m] | none => [])

/-- A small concrete store used to evaluate the theorems on concrete
inputs: one company c1 and one job with id 7 referencing it. -/
def sampleStore : Store :=
  ⟨[⟨"c1", "C1", some "Desc1", some 1, none⟩],
   [⟨7, "J1", some 100, some "0.1", "c1"⟩]⟩

example :
    sqlForPartialUpdate
      [("firstName", Val.vStr "Jareth"), ("lastName", Val.vStr "The Cat")]
      [("firstName", "first_name"), ("lastName", "last_name")]
      = .ok ("\"first_name\"=$1, \"last_name\"=$2",
             [Val.vStr "Jareth", Val.vStr "The Cat"]) := by decide

theorem colsFrom_length (M : List (String × String)) (ks : List String) :
    ∀ start : Nat, (colsFrom M start ks).length = ks.length := by
  induction ks with
  | nil => intro start; rfl
  | cons k ks ih => intro start; simp [colsFrom, ih]

theorem colsFrom_getElem? (M : List (String × String)) (ks : List String) :
    ∀ (start i : Nat), i < ks.length →
      (colsFrom M start ks)[i]? =
        ks[i]?.map (fun k => "\"" ++ lookupCol M k ++ "\"=$" ++ toString (start + i + 1)) := by
  induction ks with
  | nil => intro start i h; simp at h
  | cons k ks ih =>
      intro start i h
      cases i with
      | zero => simp [colsFrom]
      | succ n =>
          have harith : start + 1 + n + 1 = start + (n + 1) + 1 := by omega
          simp only [colsFrom, List.getElem?_cons_succ]
          rw [ih (start + 1) n (by simpa using h), harith]

/-- C2 counterexample input: the translation map binds key "a" to the
empty string.  The code falls back to the key (JavaScript `||` treats the
empty string as falsy), while translating through the map as the claim
words it would give the empty column name. -/
theorem sqlForPartialUpdate_falsy_map_counterexample :
    sqlForPartialUpdate [("a", Val.vStr "x")] [("a", "")]
        = .ok ("\"a\"=$1", [Val.vStr "x"]) ∧
    sqlForPartialUpdateSpec [("a", Val.vStr "x")] [("a", "")]
        = .ok ("\"\"=$1", [Val.vStr "x"]) ∧
    sqlForPartialUpdate [("a", Val.vStr "x")] [("a", "")]
        ≠ sqlForPartialUpdateSpec [("a", Val.vStr "x")] [("a", "")] := by
  refine ⟨by decide, by decide, by decide⟩

/-- C2 (amended): for every non-empty update mapping `U` and translation
map `M`, `sqlForPartialUpdate` returns exactly `|U|` comma-joined
assignment fragments, the i-th fragment assigning placeholder `$(i+1)` to
the column resolved from the i-th key (the map entry when non-empty, the
key verbatim when absent or empty), and the values in key order. -/
theorem sqlForPartialUpdate_shape (U : List (String × Val))
    (M : List (String × String)) (hU : U ≠ []) :
    ∃ frags : List String,
      sqlForPartialUpdate U M = .ok (String.intercalate ", " frags, U.map Prod.snd) ∧
      frags.length = U.length ∧
      ∀ i k v, U[i]? = some (k, v) →
        frags[i]? = some ("\"" ++ lookupCol M k ++ "\"=$" ++ toString (i + 1)) := by
  refine ⟨colsFrom M 0 (U.map Prod.fst), ?_, ?_, ?_⟩
  · have hlen : ¬ ((U.map Prod.fst).length = 0) := by
      simpa using fun h => hU (List.eq_nil_of_length_eq_zero h)
    simp [sqlForPartialUpdate, hlen]
    exact hU
  · rw [colsFrom_length, List.length_map]
  · intro i k v hikv
    have hi : i < U.length := by
      rcases List.getElem?_eq_some.mp hikv with ⟨h, _⟩
      exact h
    have hk : (U.map Prod.fst)[i]? = some k := by
      rw [List.getElem?_map, hikv]; rfl
    rw [colsFrom_getElem? M _ 0 i (by simpa using hi), hk]
    simp

/-- C2 witness: the amended theorem evaluated on a concrete two-field
update through the company translation map. -/
theorem sqlForPartialUpdate_shape_witness :
    ([("numEmployees", Val.vInt 9), ("logoUrl", Val.vStr "u")] : List (String × Val)) ≠ [] ∧
    ∃ frags : List String,
      sqlForPartialUpdate [("numEmployees", Val.vInt 9), ("logoUrl", Val.vStr "u")] companyJsToSql
        = .ok (String.intercalate ", " frags,
               ([("numEmployees", Val.vInt 9), ("logoUrl", Val.vStr "u")] : List (String × Val)).map Prod.snd) ∧
      frags.length = ([("numEmployees", Val.vInt 9), ("logoUrl", Val.vStr "u")] : List (String × Val)).length ∧
      ∀ i k v,
        ([("numEmployees", Val.vInt 9), ("logoUrl", Val.vStr "u")] : List (String × Val))[i]? = some (k, v) →
        frags[i]? = some ("\"" ++ lookupCol companyJsToSql k ++ "\"=$" ++ toString (i + 1)) :=
  ⟨by decide, sqlForPartialUpdate_shape _ companyJsToSql (by decide)⟩

/-- C3: for every translation map the empty update mapping is rejected
with BadRequestError "No data" before any clause is produced, and both
Company.update and Job.update propagate that rejection for every store,
leaving the store untouched. -/
theorem empty_update_rejected (M : List (String × String)) :
    sqlForPartialUpdate ([] : List (String × Val)) M
        = .error (.badRequestError "No data") ∧
    (∀ (handle : String) (s : Store),
      companyUpdate handle [] s = (.error (.badRequestError "No data"), s)) ∧
    (∀ (id : Int) (s : Store),
      jobUpdate id [] s = (.error (.badRequestError "No data"), s)) :=
  ⟨rfl, fun _ _ => rfl, fun _ _ => rfl⟩

theorem companyFindAllQuery_eq (f : CompanyFilter)
    (hv : exceedsMax f.minEmployees f.maxEmployees = false) :
    companyFindAllQuery f =
      .ok (companyTextOf f.minEmployees.isSome f.maxEmployees.isSome (companyNameActive f),
           companyValsOf f) := by
  obtain ⟨nm, mn, mx⟩ := f
  dsimp only at hv
  simp only [companyFindAllQuery]
  rw [hv]
  simp only [Bool.false_eq_true, if_false]
  rcases nm with _ | n
  · cases mn <;> cases mx <;> rfl
  · by_cases hn : n = ""
    · subst hn; cases mn <;> cases mx <;> rfl
    · have hn2 : (n == "") = false := by simpa using hn
      cases mn <;> cases mx <;>
        simp only [companyTextOf, companyValsOf, companyNameActive, hn2, hn,
          if_false, Bool.not_false, if_neg hn] <;> rfl

theorem jobFindAllQuery_eq (f : JobFilter) :
    jobFindAllQuery f =
      (jobTextOf (hasEquityActive f) f.title.isSome f.minSalary.isSome, jobValsOf f) := by
  obtain ⟨ti, ms, he⟩ := f
  unfold jobFindAllQuery
  rcases he with _ | b
  · cases ti <;> cases ms <;> first | rfl | (dsimp only; rfl)
  · cases b <;> cases ti <;> cases ms <;> first | rfl | (dsimp only; rfl)

/-- C4: when both employee bounds are present and the minimum exceeds the
maximum, Company.findAll throws BadRequestError before any statement is
issued to the store (the builder returns the error, not a query). -/
theorem companyFindAll_min_exceeds_max (f : CompanyFilter) (a b : Int)
    (hmin : f.minEmployees = some a) (hmax : f.maxEmployees = some b) (hab : b < a) :
    companyFindAllQuery f =
      .error (.badRequestError "Minimum employees cannot exceed maximum employees") := by
  have hx : exceedsMax f.minEmployees f.maxEmployees = true := by
    rw [hmin, hmax]; simp [exceedsMax]; exact hab
  simp [companyFindAllQuery, hx]

/-- C4 witness: minEmployees 5, maxEmployees 3. -/
theorem companyFindAll_min_exceeds_max_witness :
    (CompanyFilter.mk none (some 5) (some 3)).minEmployees = some 5 ∧
    (CompanyFilter.mk none (some 5) (some 3)).maxEmployees = some 3 ∧
    (3 : Int) < 5 ∧
    companyFindAllQuery ⟨none, some 5, some 3⟩ =
      .error (.badRequestError "Minimum employees cannot exceed maximum employees") :=
  ⟨rfl, rfl, by decide, companyFindAll_min_exceeds_max _ 5 3 rfl rfl (by decide)⟩

/-- C5 counterexample input: a present but empty name.  The claim (and
`companyFindAllQuerySpec`, which follows its words) adds the name
predicate for every present name, but the code's truthiness test
`if (name)` skips the empty string and issues the unfiltered listing. -/
theorem companyFindAll_empty_name_counterexample :
    (CompanyFilter.mk (some "") none none).name.isSome = true ∧
    companyFindAllQuery ⟨some "", none, none⟩ =
      .ok (companyMainQuery ++ " ORDER BY name", []) ∧
    companyFindAllQuerySpec ⟨some "", none, none⟩ =
      .ok (companyMainQuery ++ " WHERE name ILIKE $1 ORDER BY name", [Val.vStr "%%"]) ∧
    companyFindAllQuery ⟨some "", none, none⟩ ≠
      companyFindAllQuerySpec ⟨some "", none, none⟩ :=
  ⟨rfl, by decide, by decide, by decide⟩

/-- C5 (amended): for every company filter passing the bounds check,
Company.findAll issues exactly the query whose predicates appear in the
fixed order min, max, name (the name one only when present AND
non-empty), AND-joined, with placeholder indices counting the preceding
value-bearing predicates, ORDER BY name at the end, and whose positional
parameters are the present values in that same order; with no active
predicate the unfiltered listing is issued. -/
theorem companyFindAll_predicate_order (f : CompanyFilter)
    (hv : exceedsMax f.minEmployees f.maxEmployees = false) :
    companyFindAllQuery f =
      .ok (companyTextOf f.minEmployees.isSome f.maxEmployees.isSome (companyNameActive f),
           companyValsOf f) :=
  companyFindAllQuery_eq f hv

/-- C5 witness: all three filter fields present and non-empty. -/
theorem companyFindAll_predicate_order_witness :
    exceedsMax (CompanyFilter.mk (some "net") (some 1) (some 10)).minEmployees
        (CompanyFilter.mk (some "net") (some 1) (some 10)).maxEmployees = false ∧
    companyFindAllQuery ⟨some "net", some 1, some 10⟩ =
      .ok (companyTextOf true true true,
           [Val.vInt 1, Val.vInt 10, Val.vStr "%net%"]) :=
  ⟨by decide, companyFindAll_predicate_order _ (by decide)⟩

/-- C6: for every job filter, Job.findAll issues exactly the query whose
predicates appear in the fixed order equity (only when
`hasEquity === true`; `false` or absent adds nothing), title (when
present), salary (when present), AND-joined, with placeholder indices
counting the preceding value-bearing predicates, always starting from the
jobs-companies join that exposes the company name, ORDER BY title at the
end; the positional parameters are the title pattern then the salary
bound, in that order. -/
theorem jobFindAll_predicate_order (f : JobFilter) :
    jobFindAllQuery f =
      (jobTextOf (hasEquityActive f) f.title.isSome f.minSalary.isSome, jobValsOf f) :=
  jobFindAllQuery_eq f

theorem sqlForPartialUpdate_ok_of_ne_nil (U : List (String × Val))
    (M : List (String × String)) (hU : U ≠ []) :
    sqlForPartialUpdate U M =
      .ok (String.intercalate ", " (colsFrom M 0 (U.map Prod.fst)), U.map Prod.snd) := by
  have hlen : ¬ ((U.map Prod.fst).length = 0) := by
    simpa using fun h => hU (List.eq_nil_of_length_eq_zero h)
  simp [sqlForPartialUpdate, hlen]
  exact hU

theorem jobTextOf_starts_with_main (a b c : Bool) :
    ∃ rest, jobTextOf a b c = jobMainQuery ++ rest := by
  cases a <;> cases b <;> cases c
  · exact ⟨" ORDER BY title", by decide⟩
  · exact ⟨" WHERE salary >= $1 ORDER BY title", by decide⟩
  · exact ⟨" WHERE title ILIKE $1 ORDER BY title", by decide⟩
  · exact ⟨" WHERE title ILIKE $1 AND salary >= $2 ORDER BY title", by decide⟩
  · exact ⟨" WHERE equity > 0 ORDER BY title", by decide⟩
  · exact ⟨" WHERE equity > 0 AND salary >= $1 ORDER BY title", by decide⟩
  · exact ⟨" WHERE equity > 0 AND title ILIKE $1 ORDER BY title", by decide⟩
  · exact ⟨" WHERE equity > 0 AND title ILIKE $1 AND salary >= $2 ORDER BY title", by decide⟩

/-- C1 (the code evaluated at the failing input): creating company c9
with numEmployees 9 in an empty store and reading it back succeeds, but
returns the five-field company record alone — the result type of
`companyGet` carries no jobs list at all, because Company.get issues no
jobs query, although its own doc comment and the specification promise
the associated jobs (an empty list here). -/
theorem companyGet_returns_no_jobs_list :
    companyCreate ⟨"c9", "Nine", none, some 9, none⟩ ⟨[], []⟩ =
      (.ok ⟨"c9", "Nine", none, some 9, none⟩,
       ⟨[⟨"c9", "Nine", none, some 9, none⟩], []⟩) ∧
    companyGet "c9" ⟨[⟨"c9", "Nine", none, some 9, none⟩], []⟩ =
      .ok ⟨"c9", "Nine", none, some 9, none⟩ :=
  ⟨by decide, by decide⟩

/-- C7: creating a company whose handle already appears in the store
fails with the duplicate-key error (BadRequestError, the 400-mapped
conflict of the specification) and returns the store unchanged — the
duplicate check runs before the INSERT, so no row is written. -/
theorem companyCreate_duplicate_handle (d : Company) (s : Store) (c : Company)
    (hc : c ∈ s.companies) (hh : c.handle = d.handle) :
    companyCreate d s =
      (.error (.badRequestError ("Duplicate company: " ++ d.handle)), s) := by
  cases hfind : s.companies.find? (fun c => c.handle == d.handle) with
  | none =>
      have := List.find?_eq_none.mp hfind c hc
      simp [hh] at this
  | some y => simp [companyCreate, hfind]

/-- C7 witness: duplicating handle c1 of the sample store. -/
theorem companyCreate_duplicate_handle_witness :
    (⟨"c1", "C1", some "Desc1", some 1, none⟩ : Company) ∈ sampleStore.companies ∧
    companyCreate ⟨"c1", "Other", none, none, none⟩ sampleStore =
      (.error (.badRequestError ("Duplicate company: " ++ "c1")), sampleStore) :=
  ⟨by decide,
   companyCreate_duplicate_handle _ sampleStore ⟨"c1", "C1", some "Desc1", some 1, none⟩
     (by decide) rfl⟩

theorem findSome?_eq_none_of_all {α β : Type} (f : α → Option β) (l : List α)
    (h : ∀ a ∈ l, f a = none) : l.findSome? f = none := by
  induction l with
  | nil => rfl
  | cons a l ih =>
      have ha := h a (by simp)
      rw [List.findSome?_cons, ha]
      exact ih (fun x hx => h x (by simp [hx]))

/-- C8: when the identifier matches no row, every get/update/remove
operation fails with NotFoundError and the write operations leave the
store exactly as it was (the UPDATE/DELETE matched nothing). -/
theorem missing_identifier_not_found (handle : String) (id : Int)
    (data : List (String × Val)) (s : Store)
    (hdata : data ≠ [])
    (hc : ∀ c ∈ s.companies, c.handle ≠ handle)
    (hj : ∀ j ∈ s.jobs, j.id ≠ id) :
    companyUpdate handle data s =
      (.error (.notFoundError ("No company: " ++ handle)), s) ∧
    companyRemove handle s =
      (.error (.notFoundError ("No company: " ++ handle)), s) ∧
    companyGet handle s = .error (.notFoundError ("No company: " ++ handle)) ∧
    jobUpdate id data s =
      (.error (.notFoundError ("That job does not exist: job id " ++ toString id)), s) ∧
    jobRemove id s =
      (.error (.notFoundError ("That job does not exist: job id " ++ toString id)), s) ∧
    jobGet id s = .error (.notFoundError ("That job does not exist: job id " ++ toString id)) := by
  have hcf : s.companies.find? (fun c => c.handle == handle) = none := by
    rw [List.find?_eq_none]
    intro c hcm
    simpa using hc c hcm
  have hjf : s.jobs.find? (fun j => j.id == id) = none := by
    rw [List.find?_eq_none]
    intro j hjm
    simpa using hj j hjm
  have hctouched :
      List.findSome?
        (fun c => if c.handle = handle then
          some (applyCompanyUpdate c
            (List.map (fun kv => (lookupCol companyJsToSql kv.1, kv.2)) data))
        else none) s.companies = none :=
    findSome?_eq_none_of_all _ _ (fun c hcm => by simp [hc c hcm])
  have hjtouched :
      List.findSome?
        (fun j => if j.id = id then
          some (applyJobUpdate j (List.map (fun kv => (lookupCol [] kv.1, kv.2)) data))
        else none) s.jobs = none :=
    findSome?_eq_none_of_all _ _ (fun j hjm => by simp [hj j hjm])
  refine ⟨?_, ?_, ?_, ?_, ?_, ?_⟩
  · simp [companyUpdate, sqlForPartialUpdate_ok_of_ne_nil data companyJsToSql hdata, hctouched]
  · simp [companyRemove, hcf]
  · simp [companyGet, hcf]
  · simp [jobUpdate, sqlForPartialUpdate_ok_of_ne_nil data [] hdata, hjtouched]
  · simp [jobRemove, hjf]
  · simp [jobGet, hjf]

/-- C8 witness: handle "nonexistent" and id 999999999 against the sample
store. -/
theorem missing_identifier_not_found_witness :
    ([("name", Val.vStr "x")] : List (String × Val)) ≠ [] ∧
    (∀ c ∈ sampleStore.companies, c.handle ≠ "nonexistent") ∧
    (∀ j ∈ sampleStore.jobs, j.id ≠ (999999999 : Int)) ∧
    (companyUpdate "nonexistent" [("name", Val.vStr "x")] sampleStore =
      (.error (.notFoundError ("No company: " ++ "nonexistent")), sampleStore) ∧
    companyRemove "nonexistent" sampleStore =
      (.error (.notFoundError ("No company: " ++ "nonexistent")), sampleStore) ∧
    companyGet "nonexistent" sampleStore =
      .error (.notFoundError ("No company: " ++ "nonexistent")) ∧
    jobUpdate 999999999 [("name", Val.vStr "x")] sampleStore =
      (.error (.notFoundError
        ("That job does not exist: job id " ++ toString (999999999 : Int))), sampleStore) ∧
    jobRemove 999999999 sampleStore =
      (.error (.notFoundError
        ("That job does not exist: job id " ++ toString (999999999 : Int))), sampleStore) ∧
    jobGet 999999999 sampleStore =
      .error (.notFoundError
        ("That job does not exist: job id " ++ toString (999999999 : Int)))) :=
  ⟨by decide, by decide, by decide,
   missing_identifier_not_found "nonexistent" 999999999 [("name", Val.vStr "x")]
     sampleStore (by decide) (by decide) (by decide)⟩

/-- C9: reading one job by an existing id nests the referenced company's
full record under `companyHandle`, replacing the flat handle string; a
missing id fails with NotFoundError; and every Job.findAll listing query
starts from the flat projection (`j.company_handle AS "companyHandle"`
plus the joined company name) of `jobMainQuery`. -/
theorem jobGet_nests_company (id : Int) (s : Store) (j : Job) (c : Company)
    (hj : s.jobs.find? (fun jj => jj.id == id) = some j)
    (hc : s.companies.find? (fun cc => cc.handle == j.companyHandle) = some c) :
    jobGet id s = .ok ⟨j.id, j.title, j.salary, j.equity, some c⟩ ∧
    (∀ (i2 : Int) (s2 : Store), s2.jobs.find? (fun jj => jj.id == i2) = none →
      jobGet i2 s2 =
        .error (.notFoundError ("That job does not exist: job id " ++ toString i2))) ∧
    (∀ f : JobFilter, ∃ rest, (jobFindAllQuery f).1 = jobMainQuery ++ rest) := by
  refine ⟨by simp [jobGet, hj, hc], fun i2 s2 h2 => by simp [jobGet, h2], fun f => ?_⟩
  rw [jobFindAllQuery_eq f]
  exact jobTextOf_starts_with_main _ _ _

/-- C9 witness: job 7 of the sample store, whose company c1 exists. -/
theorem jobGet_nests_company_witness :
    sampleStore.jobs.find? (fun jj => jj.id == (7 : Int)) =
      some ⟨7, "J1", some 100, some "0.1", "c1"⟩ ∧
    sampleStore.companies.find? (fun cc => cc.handle == "c1") =
      some ⟨"c1", "C1", some "Desc1", some 1, none⟩ ∧
    (jobGet 7 sampleStore =
      .ok ⟨7, "J1", some 100, some "0.1", some ⟨"c1", "C1", some "Desc1", some 1, none⟩⟩ ∧
    (∀ (i2 : Int) (s2 : Store), s2.jobs.find? (fun jj => jj.id == i2) = none →
      jobGet i2 s2 =
        .error (.notFoundError ("That job does not exist: job id " ++ toString i2))) ∧
    (∀ f : JobFilter, ∃ rest, (jobFindAllQuery f).1 = jobMainQuery ++ rest)) :=
  ⟨by decide, by decide,
   jobGet_nests_company 7 sampleStore ⟨7, "J1", some 100, some "0.1", "c1"⟩
     ⟨"c1", "C1", some "Desc1", some 1, none⟩ (by decide) (by decide)⟩

/-- C10 counterexample input: two job filters defining exactly the same
keys (only `hasEquity`), bound to `true` in one and `false` in the other.
The generated SQL texts differ, so the statement text depends on a bound
value, not only on which keys are defined. -/
theorem jobFindAll_equity_value_changes_text :
    (JobFilter.mk none none (some true)).title.isSome =
      (JobFilter.mk none none (some false)).title.isSome ∧
    (JobFilter.mk none none (some true)).minSalary.isSome =
      (JobFilter.mk none none (some false)).minSalary.isSome ∧
    (JobFilter.mk none none (some true)).hasEquity.isSome =
      (JobFilter.mk none none (some false)).hasEquity.isSome ∧
    (jobFindAllQuery ⟨none, none, some true⟩).1 ≠
      (jobFindAllQuery ⟨none, none, some false⟩).1 :=
  ⟨rfl, rfl, rfl, by decide⟩

/-- C10 (amended): the statement text depends only on which predicates
are active — for companies the presence of the two bounds and the
truthiness of name, for jobs the presence of title and minSalary and the
boolean bound to hasEquity; all other value content flows only into the
positional parameter list. -/
theorem findAll_text_depends_only_on_active_shape :
    (∀ f g : CompanyFilter,
      exceedsMax f.minEmployees f.maxEmployees = false →
      exceedsMax g.minEmployees g.maxEmployees = false →
      f.minEmployees.isSome = g.minEmployees.isSome →
      f.maxEmployees.isSome = g.maxEmployees.isSome →
      companyNameActive f = companyNameActive g →
      ∃ q vf vg, companyFindAllQuery f = .ok (q, vf) ∧
        companyFindAllQuery g = .ok (q, vg)) ∧
    (∀ f g : JobFilter,
      hasEquityActive f = hasEquityActive g →
      f.title.isSome = g.title.isSome →
      f.minSalary.isSome = g.minSalary.isSome →
      (jobFindAllQuery f).1 = (jobFindAllQuery g).1) := by
  constructor
  · intro f g hf hg h1 h2 h3
    refine ⟨_, companyValsOf f, companyValsOf g, companyFindAllQuery_eq f hf, ?_⟩
    rw [companyFindAllQuery_eq g hg, h1, h2, h3]
  · intro f g h1 h2 h3
    rw [jobFindAllQuery_eq f, jobFindAllQuery_eq g]
    dsimp only
    rw [h1, h2, h3]

/-- C10 witness: two company filters with equal shape but different
bounds and names, and two job filters with equal shape but different
titles and salaries. -/
theorem findAll_text_shape_witness :
    (∃ q vf vg,
      companyFindAllQuery ⟨some "abc", some 1, none⟩ = .ok (q, vf) ∧
      companyFindAllQuery ⟨some "xy", some 7, none⟩ = .ok (q, vg)) ∧
    (jobFindAllQuery ⟨some "a", some 5, some true⟩).1 =
      (jobFindAllQuery ⟨some "b", some 9, some true⟩).1 :=
  ⟨findAll_text_depends_only_on_active_shape.1
     ⟨some "abc", some 1, none⟩ ⟨some "xy", some 7, none⟩
     (by decide) (by decide) rfl rfl (by decide),
   findAll_text_depends_only_on_active_shape.2
     ⟨some "a", some 5, some true⟩ ⟨some "b", some 9, some true⟩
     rfl rfl rfl⟩
